import Mathlib

/-!
Verification of the map conversion script `tools/convert_maps.py`
(repository tobert/sregame).

The script converts RPGMaker MZ map records to a simplified JSON map
format.  We shallowly embed the record types and the conversion
functions; Python integers become `Int` (grid dimensions, known
positive, become `Nat`), JSON arrays become `List`, the nullable
entries of `events` become `Option Event`, and the fallible parts of
the conversion (list indexing after a guard) return `Except String`.
-/

namespace ConvertMaps

/-- One event command: an integer `code` and a parameter list.  The
conversion only reads string first parameters, so parameters are
embedded as strings. -/
structure Command where
  code : Int
  parameters : List String
deriving Repr, DecidableEq

/-- The `image` object of an event page: sprite name and direction code. -/
structure Image where
  characterName : String
  direction : Int
deriving Repr, DecidableEq

/-- One event page: its `image` and its command `list`. -/
structure Page where
  image : Image
  list : List Command
deriving Repr, DecidableEq

/-- One map event: name, tile coordinates and pages. -/
structure Event where
  name : String
  x : Int
  y : Int
  pages : List Page
deriving Repr, DecidableEq

/-- A source map record as read from an RPGMaker `Map*.json` file,
restricted to the fields the converter consumes.  Entries of `events`
may be `null`. -/
structure SourceMap where
  width : Nat
  height : Nat
  data : List Int
  displayName : String
  events : List (Option Event)
deriving Repr, DecidableEq

/-- The nested `dialogue` object of an output NPC record. -/
structure Dialogue where
  speaker : String
  portrait : String
  lines : List String
deriving Repr, DecidableEq

/-- An output NPC record. -/
structure Npc where
  name : String
  x : Int
  y : Int
  sprite : String
  facing : String
  dialogue : Dialogue
deriving Repr, DecidableEq

/-- The simplified map record written as output. -/
structure CleanMap where
  name : String
  width : Nat
  height : Nat
  tiles : List Int
  npcs : List Npc
deriving Repr, DecidableEq

/-- `convert_direction` from the source: the dictionary
`\x7b2: down, 4: left, 6: right, 8: up\x7d.get(dir, "down")`. -/
def convert_direction (rpgmaker_dir : Int) : String :=
  if rpgmaker_dir == 2 then "down"
  else if rpgmaker_dir == 4 then "left"
  else if rpgmaker_dir == 6 then "right"
  else if rpgmaker_dir == 8 then "up"
  else "down"

/-- The loop body state of `extract_dialogue_from_commands`: the Python
`for cmd in commands` loop carrying the mutable `portrait` and `lines`.
Python truthiness of `cmd['parameters']` is list non-emptiness. -/
def extractGo : String → List String → List Command → String × List String
  | portrait, acc, [] => (portrait, acc)
  | portrait, acc, cmd :: rest =>
    if cmd.code == 101 && !cmd.parameters.isEmpty then
      extractGo (cmd.parameters.headD "") acc rest
    else if cmd.code == 401 && !cmd.parameters.isEmpty then
      extractGo portrait (acc ++ [cmd.parameters.headD ""]) rest
    else
      extractGo portrait acc rest

/-- `extract_dialogue_from_commands` from the source: scan the commands,
starting from an empty portrait and no lines. -/
def extract_dialogue_from_commands (commands : List Command) : String × List String :=
  extractGo "" [] commands

/-- `simplify_tile_id` from the source. -/
def simplify_tile_id (tile_id : Int) : Int :=
  if 2048 ≤ tile_id then tile_id - 2048
  else if 1536 ≤ tile_id then tile_id - 1536
  else 0

/-- The per-event body of the `for event in rpg_data['events']` loop of
`convert_map`.  `Except.ok none` is the Python `continue`;
`Except.ok (some npc)` appends an NPC.  Indexing `event['pages'][0]`
happens after the short-circuit guard `not event['pages']`, so the
`IndexError` branch models the raw indexing and is in fact unreachable. -/
def convertEvent : Option Event → Except String (Option Npc)
  | none => Except.ok none
  | some event =>
    if event.pages.isEmpty then Except.ok none
    else
      match event.pages.head? with
      | none => Except.error "IndexError"
      | some page =>
        if page.image.characterName == "" then Except.ok none
        else
          let pl := extract_dialogue_from_commands page.list
          if pl.2.isEmpty then Except.ok none
          else Except.ok (some
            { name := event.name
              x := event.x
              y := event.y
              sprite := page.image.characterName
              facing := convert_direction page.image.direction
              dialogue :=
                { speaker := event.name
                  portrait := pl.1
                  lines := pl.2 } })

/-- The whole events loop of `convert_map`, collecting the `npcs` list
in source order. -/
def convertEvents : List (Option Event) → Except String (List Npc)
  | [] => Except.ok []
  | oe :: rest =>
    match convertEvent oe with
    | Except.error e => Except.error e
    | Except.ok none => convertEvents rest
    | Except.ok (some npc) =>
      match convertEvents rest with
      | Except.error e => Except.error e
      | Except.ok npcs => Except.ok (npc :: npcs)

/-- `convert_map` from the source, on an already-parsed source record:
slice `data` to the first `width*height` entries (Python `[:layer_size]`
truncates, never fails), simplify each tile ID, extract the NPCs, and
assemble the clean record. -/
def convert_map (rpg_data : SourceMap) : Except String CleanMap :=
  let layer_size := rpg_data.width * rpg_data.height
  let raw_tiles := rpg_data.data.take layer_size
  let tiles := raw_tiles.map simplify_tile_id
  match convertEvents rpg_data.events with
  | Except.error e => Except.error e
  | Except.ok npcs =>
    Except.ok
      { name := rpg_data.displayName
        width := rpg_data.width
        height := rpg_data.height
        tiles := tiles
        npcs := npcs }

/-- Path resolution of the driver: `rpgmaker_data_dir / rpg_file`. -/
def resolvePath (dir file : String) : String := dir ++ "/" ++ file

/-- The skip notice the driver prints for a missing source file. -/
def skipNotice (file : String) : String := "Skipping " ++ file ++ " (not found)"

/-- The driver loop of `main`: the filesystem is abstracted as a partial
map from resolved paths to parsed source records.  Returns the list of
(destination, record) writes and the list of skip notices; a conversion
error aborts the whole run, as an uncaught exception does in the script. -/
def runDriver (fs : String → Option SourceMap) (srcDir : String) :
    List (String × String) → Except String (List (String × CleanMap) × List String)
  | [] => Except.ok ([], [])
  | (src, dst) :: rest =>
    match fs (resolvePath srcDir src) with
    | none =>
      match runDriver fs srcDir rest with
      | Except.error e => Except.error e
      | Except.ok (outs, logs) => Except.ok (outs, skipNotice src :: logs)
    | some m =>
      match convert_map m with
      | Except.error e => Except.error e
      | Except.ok clean =>
        match runDriver fs srcDir rest with
        | Except.error e => Except.error e
        | Except.ok (outs, logs) =>
          Except.ok ((dst, clean) :: outs, logs)

/-- The end-to-end scenario source record of the spec. -/
def exampleSourceMap : SourceMap :=
  { width := 2
    height := 1
    data := [2050, 1600]
    displayName := "Test"
    events :=
      [ none
      , some
          { name := "Bob"
            x := 1
            y := 0
            pages :=
              [ { image := { characterName := "Actor1", direction := 6 }
                  list :=
                    [ { code := 101, parameters := ["Bob_1"] }
                    , { code := 401, parameters := ["Hi there"] } ] } ] } ] }

/-- The simplified record the spec expects for `exampleSourceMap`. -/
def exampleCleanMap : CleanMap :=
  { name := "Test"
    width := 2
    height := 1
    tiles := [2, 64]
    npcs :=
      [ { name := "Bob"
          x := 1
          y := 0
          sprite := "Actor1"
          facing := "right"
          dialogue :=
            { speaker := "Bob"
              portrait := "Bob_1"
              lines := ["Hi there"] } } ] }

/-- A source record whose `data` has fewer than `width*height` entries. -/
def shortDataMap : SourceMap :=
  { width := 2
    height := 1
    data := [2050]
    displayName := "Short"
    events := [] }

/-- The record `convert_map` actually produces for `shortDataMap`. -/
def shortDataClean : CleanMap :=
  { name := "Short"
    width := 2
    height := 1
    tiles := [2]
    npcs := [] }

/-- Another short-data source record, used for the tile-length invariant. -/
def shortDataMap3 : SourceMap :=
  { width := 3
    height := 1
    data := [2049]
    displayName := "Short3"
    events := [] }

/-- The record `convert_map` actually produces for `shortDataMap3`. -/
def shortDataClean3 : CleanMap :=
  { name := "Short3"
    width := 3
    height := 1
    tiles := [1]
    npcs := [] }

/-- A source record with extra trailing layer data beyond `width*height`. -/
def extraDataMap : SourceMap :=
  { width := 2
    height := 1
    data := [2050, 1600, 9, 1537]
    displayName := "Extra"
    events := [] }

/-- C1: converting the source record of the end-to-end scenario yields
exactly the expected simplified map record. -/
theorem C1_end_to_end :
    convert_map exampleSourceMap = Except.ok exampleCleanMap := by
  rfl

/-- `convertEvent` never takes its `IndexError` branch: the guard on
`pages` being non-empty precedes the indexing. -/
theorem convertEvent_ok (oe : Option Event) :
    ∃ r, convertEvent oe = Except.ok r := by
  match oe with
  | none => exact ⟨none, rfl⟩
  | some event =>
    match h : event.pages with
    | [] =>
      refine ⟨none, ?_⟩
      simp [convertEvent, h]
    | page :: rest =>
      simp only [convertEvent, h, List.isEmpty_cons, Bool.false_eq_true, if_false,
        List.head?_cons]
      by_cases hc : page.image.characterName == ""
      · exact ⟨none, by simp [hc]⟩
      · by_cases hl : (extract_dialogue_from_commands page.list).2.isEmpty
        · exact ⟨none, by simp [hc, hl]⟩
        · exact ⟨some
            { name := event.name
              x := event.x
              y := event.y
              sprite := page.image.characterName
              facing := convert_direction page.image.direction
              dialogue :=
                { speaker := event.name
                  portrait := (extract_dialogue_from_commands page.list).1
                  lines := (extract_dialogue_from_commands page.list).2 } },
            by simp [hc, hl]⟩

/-- The events loop never fails. -/
theorem convertEvents_ok (evs : List (Option Event)) :
    ∃ npcs, convertEvents evs = Except.ok npcs := by
  induction evs with
  | nil => exact ⟨[], rfl⟩
  | cons oe rest ih =>
    obtain ⟨r, hr⟩ := convertEvent_ok oe
    obtain ⟨npcs, hnpcs⟩ := ih
    match r with
    | none => exact ⟨npcs, by simp [convertEvents, hr, hnpcs]⟩
    | some npc => exact ⟨npc :: npcs, by simp [convertEvents, hr, hnpcs]⟩

/-- `convert_map` always succeeds on a well-typed source record, and its
tiles list has length `min (width*height) (length data)`. -/
theorem convert_map_ok (m : SourceMap) :
    ∃ r, convert_map m = Except.ok r ∧
      r.tiles.length = min (m.width * m.height) m.data.length := by
  obtain ⟨npcs, hnpcs⟩ := convertEvents_ok m.events
  refine ⟨{ name := m.displayName
            width := m.width
            height := m.height
            tiles := (m.data.take (m.width * m.height)).map simplify_tile_id
            npcs := npcs }, ?_, ?_⟩
  · simp [convert_map, hnpcs]
  · simp [List.length_take]

/-- C2 counterexample: on a source record whose `data` has fewer than
`width*height` entries, `convert_map` does not fail; it produces an
output record (Python slicing truncates silently, and the script raises
no `MalformedMapError` anywhere). -/
theorem C2_counterexample :
    shortDataMap.data.length < shortDataMap.width * shortDataMap.height ∧
      convert_map shortDataMap = Except.ok shortDataClean := by
  exact ⟨by decide, rfl⟩

/-- C2 amended: on a source record whose `data` has fewer than
`width*height` entries, the conversion succeeds and produces a record
whose tiles list holds all of `data` simplified, with length
`length data` (shorter than `width*height`). -/
theorem C2_amended (m : SourceMap)
    (h : m.data.length < m.width * m.height) :
    ∃ r, convert_map m = Except.ok r ∧ r.tiles.length = m.data.length := by
  obtain ⟨r, hr, hlen⟩ := convert_map_ok m
  exact ⟨r, hr, by omega⟩

/-- Witness for `C2_amended` at the concrete record `shortDataMap`. -/
theorem C2_amended_witness :
    ∃ r, convert_map shortDataMap = Except.ok r ∧
      r.tiles.length = shortDataMap.data.length :=
  C2_amended shortDataMap (by decide)

/-- C3 counterexample: `shortDataMap3` is accepted by `convert_map`
(no error is raised), yet the tiles list of its output has length 1,
not `width*height = 3`. -/
theorem C3_counterexample :
    convert_map shortDataMap3 = Except.ok shortDataClean3 ∧
      shortDataClean3.tiles.length ≠ shortDataMap3.width * shortDataMap3.height := by
  exact ⟨rfl, by decide⟩

/-- C3 amended: for every source record whose `data` has at least
`width*height` entries (in particular with extra trailing layer data),
the output tiles list has length exactly `width*height`; the excess
layer entries are discarded. -/
theorem C3_amended (m : SourceMap) (r : CleanMap)
    (hlen : m.width * m.height ≤ m.data.length)
    (h : convert_map m = Except.ok r) :
    r.tiles.length = m.width * m.height := by
  obtain ⟨r2, hr2, hlen2⟩ := convert_map_ok m
  rw [h] at hr2
  cases Except.ok.inj hr2
  omega

/-- Witness for `C3_amended` at the concrete record `extraDataMap`,
whose `data` carries two excess trailing entries. -/
theorem C3_amended_witness :
    (convert_map extraDataMap =
      Except.ok
        { name := "Extra", width := 2, height := 1, tiles := [2, 64], npcs := [] }) ∧
    ({ name := "Extra", width := 2, height := 1, tiles := [2, 64],
       npcs := [] } : CleanMap).tiles.length =
      extraDataMap.width * extraDataMap.height :=
  ⟨rfl, C3_amended extraDataMap _ (by decide) rfl⟩

/-- C4: the tile ID simplifier subtracts 2048 from IDs at least 2048,
subtracts 1536 from IDs in [1536, 2048), and collapses all smaller IDs
to 0, the brackets being evaluated top-down with the first match
winning. -/
theorem C4_simplify_tile_id (t : Int) :
    (2048 ≤ t → simplify_tile_id t = t - 2048) ∧
    (1536 ≤ t ∧ t < 2048 → simplify_tile_id t = t - 1536) ∧
    (t < 1536 → simplify_tile_id t = 0) := by
  refine ⟨fun h => ?_, fun h => ?_, fun h => ?_⟩
  · simp only [simplify_tile_id]
    rw [if_pos h]
  · simp only [simplify_tile_id]
    rw [if_neg (by omega), if_pos h.1]
  · simp only [simplify_tile_id]
    rw [if_neg (by omega), if_neg (by omega)]

/-- Witness for `C4_simplify_tile_id` at 3000, 1600 and 10. -/
theorem C4_simplify_tile_id_witness :
    simplify_tile_id 3000 = 952 ∧ simplify_tile_id 1600 = 64 ∧
      simplify_tile_id 10 = 0 :=
  ⟨(C4_simplify_tile_id 3000).1 (by decide),
   (C4_simplify_tile_id 1600).2.1 (by decide),
   (C4_simplify_tile_id 10).2.2 (by decide)⟩

/-- C5: the direction mapper sends 2 to down, 4 to left, 6 to right and
8 to up, every other integer to down, and its result is always one of
the four facing names. -/
theorem C5_convert_direction :
    convert_direction 2 = "down" ∧ convert_direction 4 = "left" ∧
    convert_direction 6 = "right" ∧ convert_direction 8 = "up" ∧
    ∀ d : Int,
      (d ≠ 2 ∧ d ≠ 4 ∧ d ≠ 6 ∧ d ≠ 8 → convert_direction d = "down") ∧
      (convert_direction d = "down" ∨ convert_direction d = "left" ∨
        convert_direction d = "right" ∨ convert_direction d = "up") := by
  refine ⟨rfl, rfl, rfl, rfl, fun d => ⟨fun h => ?_, ?_⟩⟩
  · obtain ⟨h2, h4, h6, h8⟩ := h
    simp [convert_direction, h2, h4, h6, h8]
  · simp only [convert_direction]
    split
    · exact Or.inl rfl
    · split
      · exact Or.inr (Or.inl rfl)
      · split
        · exact Or.inr (Or.inr (Or.inl rfl))
        · split
          · exact Or.inr (Or.inr (Or.inr rfl))
          · exact Or.inl rfl

/-- Witness for `C5_convert_direction` at the out-of-range codes -1 and 9999. -/
theorem C5_convert_direction_witness :
    convert_direction (-1) = "down" ∧ convert_direction 9999 = "down" :=
  ⟨((C5_convert_direction.2.2.2.2 (-1)).1 (by decide)),
   ((C5_convert_direction.2.2.2.2 9999).1 (by decide))⟩

/-- A command is a "show portrait" command with a non-empty parameter list. -/
def pred101 (c : Command) : Bool := c.code == 101 && !c.parameters.isEmpty

/-- A command is a "show text" command with a non-empty parameter list. -/
def pred401 (c : Command) : Bool := c.code == 401 && !c.parameters.isEmpty

/-- Modelled from the spec: the dialogue lines are the in-order first
parameters of all "show text" commands with a non-empty parameter list. -/
def lines_from_spec (commands : List Command) : List String :=
  (commands.filter pred401).map (fun c => c.parameters.headD "")

/-- The portrait the scan yields when started from default `p`: the
first parameter of the last "show portrait" command with a non-empty
parameter list, or `p` if none occurs. -/
def portraitFold (p : String) (commands : List Command) : String :=
  match (commands.filter pred101).getLast? with
  | none => p
  | some c => c.parameters.headD ""

/-- Modelled from the spec: the portrait is the first parameter of the
last "show portrait" command with a non-empty parameter list, or the
empty string if none occurs (last occurrence wins). -/
def portrait_from_spec (commands : List Command) : String :=
  portraitFold "" commands

/-- The scanning loop computes exactly the spec's fold, for any initial
portrait and accumulated lines. -/
theorem extractGo_eq (p : String) (acc : List String) (cmds : List Command) :
    extractGo p acc cmds = (portraitFold p cmds, acc ++ lines_from_spec cmds) := by
  induction cmds generalizing p acc with
  | nil => simp [extractGo, portraitFold, lines_from_spec]
  | cons c rest ih =>
    simp only [extractGo]
    by_cases h1 : (c.code == 101 && !c.parameters.isEmpty) = true
    · rw [if_pos h1, ih]
      have hcode : c.code = 101 := by
        simp only [Bool.and_eq_true, beq_iff_eq] at h1
        exact h1.1
      have h101 : pred101 c = true := h1
      have h401 : pred401 c = false := by simp [pred401, hcode]
      have hfil : (c :: rest).filter pred101 = c :: rest.filter pred101 :=
        List.filter_cons_of_pos h101
      refine Prod.ext ?_ ?_
      · show portraitFold (c.parameters.headD "") rest = portraitFold p (c :: rest)
        simp only [portraitFold, hfil]
        cases hfl : rest.filter pred101 with
        | nil => simp
        | cons d ds =>
          simp only [List.getLast?_cons_cons]
          cases hgl : (d :: ds).getLast? with
          | none => simp at hgl
          | some x => rfl
      · show acc ++ lines_from_spec rest = acc ++ lines_from_spec (c :: rest)
        simp [lines_from_spec, List.filter_cons_of_neg, h401]
    · rw [if_neg h1]
      have h101 : pred101 c = false := by
        simp only [pred101]
        exact Bool.not_eq_true _ ▸ h1
      have hfil : (c :: rest).filter pred101 = rest.filter pred101 :=
        List.filter_cons_of_neg (by simp [h101])
      by_cases h2 : (c.code == 401 && !c.parameters.isEmpty) = true
      · rw [if_pos h2, ih]
        have h401 : pred401 c = true := h2
        refine Prod.ext ?_ ?_
        · show portraitFold p rest = portraitFold p (c :: rest)
          simp only [portraitFold, hfil]
        · show (acc ++ [c.parameters.headD ""]) ++ lines_from_spec rest =
            acc ++ lines_from_spec (c :: rest)
          simp [lines_from_spec, List.filter_cons_of_pos h401, List.append_assoc]
      · rw [if_neg h2, ih]
        have h401 : pred401 c = false := by
          simp only [pred401]
          exact Bool.not_eq_true _ ▸ h2
        refine Prod.ext ?_ ?_
        · show portraitFold p rest = portraitFold p (c :: rest)
          simp only [portraitFold, hfil]
        · show acc ++ lines_from_spec rest = acc ++ lines_from_spec (c :: rest)
          simp [lines_from_spec, List.filter_cons_of_neg, h401]

/-- C6: the dialogue extractor returns the pair (portrait, lines) where
lines lists, in order, the first parameters of all "show text" commands
with a non-empty parameter list, and portrait is the first parameter of
the last "show portrait" command with a non-empty parameter list (empty
string if none); every other command is ignored without error. -/
theorem C6_extract_dialogue (commands : List Command) :
    extract_dialogue_from_commands commands =
      (portrait_from_spec commands, lines_from_spec commands) := by
  rw [extract_dialogue_from_commands, extractGo_eq]
  rfl

/-- C7: an event entry that is null, or whose first page has an empty
sprite name, yields no NPC and is dropped from the events loop without
an error. -/
theorem C7_null_or_no_sprite (oe : Option Event) (evs : List (Option Event))
    (h : oe = none ∨ ∃ e page rest, oe = some e ∧ e.pages = page :: rest ∧
      page.image.characterName = "") :
    convertEvent oe = Except.ok none ∧
      convertEvents (oe :: evs) = convertEvents evs := by
  have hok : convertEvent oe = Except.ok none := by
    rcases h with h | ⟨e, page, rest, rfl, hp, hc⟩
    · subst h; rfl
    · simp [convertEvent, hp, hc]
  exact ⟨hok, by simp [convertEvents, hok]⟩

/-- An event whose only page has an empty sprite name. -/
def noSpriteEvent : Event :=
  { name := "Ghost"
    x := 0
    y := 0
    pages := [{ image := { characterName := "", direction := 2 }, list := [] }] }

/-- Witness for `C7_null_or_no_sprite` at `noSpriteEvent`. -/
theorem C7_null_or_no_sprite_witness :
    convertEvent (some noSpriteEvent) = Except.ok none ∧
      convertEvents [some noSpriteEvent] = convertEvents [] :=
  C7_null_or_no_sprite (some noSpriteEvent) []
    (Or.inr ⟨noSpriteEvent, _, _, rfl, rfl, rfl⟩)

/-- C10: a non-null event whose pages list is empty is skipped without
error: the emptiness guard short-circuits before the first page would be
indexed, so the loop proceeds as if the event were absent. -/
theorem C10_empty_pages (e : Event) (evs : List (Option Event))
    (h : e.pages = []) :
    convertEvent (some e) = Except.ok none ∧
      convertEvents (some e :: evs) = convertEvents evs := by
  have hok : convertEvent (some e) = Except.ok none := by
    simp [convertEvent, h]
  exact ⟨hok, by simp [convertEvents, hok]⟩

/-- An event with no pages at all. -/
def emptyPagesEvent : Event := { name := "Empty", x := 2, y := 3, pages := [] }

/-- Witness for `C10_empty_pages` at `emptyPagesEvent`. -/
theorem C10_empty_pages_witness :
    convertEvent (some emptyPagesEvent) = Except.ok none ∧
      convertEvents [some emptyPagesEvent] = convertEvents [] :=
  C10_empty_pages emptyPagesEvent [] rfl

/-- An emitted NPC always carries the non-empty lines list produced by
the dialogue extractor. -/
theorem convertEvent_lines_ne_nil (oe : Option Event) (npc : Npc)
    (h : convertEvent oe = Except.ok (some npc)) : npc.dialogue.lines ≠ [] := by
  match oe with
  | none => simp [convertEvent] at h
  | some event =>
    match hp : event.pages with
    | [] => simp [convertEvent, hp] at h
    | page :: rest =>
      simp only [convertEvent, hp, List.isEmpty_cons, Bool.false_eq_true, if_false,
        List.head?_cons] at h
      by_cases hc : page.image.characterName == ""
      · simp [hc] at h
      · by_cases hl : (extract_dialogue_from_commands page.list).2.isEmpty
        · simp [hc, hl] at h
        · simp only [hc, hl, Bool.false_eq_true, if_false, Except.ok.injEq,
            Option.some.injEq] at h
          subst h
          simpa using hl

/-- Every NPC collected by the events loop has a non-empty lines list. -/
theorem convertEvents_lines_ne_nil (evs : List (Option Event))
    (npcs : List Npc) (h : convertEvents evs = Except.ok npcs) (npc : Npc)
    (hm : npc ∈ npcs) : npc.dialogue.lines ≠ [] := by
  induction evs generalizing npcs with
  | nil =>
    simp only [convertEvents, Except.ok.injEq] at h
    subst h
    simp at hm
  | cons oe rest ih =>
    simp only [convertEvents] at h
    match hr : convertEvent oe with
    | Except.error e => rw [hr] at h; exact absurd h (by simp)
    | Except.ok none => rw [hr] at h; exact ih npcs h hm
    | Except.ok (some npc2) =>
      rw [hr] at h
      match hrest : convertEvents rest with
      | Except.error e => rw [hrest] at h; exact absurd h (by simp)
      | Except.ok npcs2 =>
        rw [hrest] at h
        simp only [Except.ok.injEq] at h
        subst h
        rcases List.mem_cons.mp hm with rfl | hm2
        · exact convertEvent_lines_ne_nil oe npc hr
        · exact ih npcs2 hrest hm2

/-- C8: every NPC record in the output of the map converter has a
non-empty dialogue lines list, and an event whose first page yields no
extracted lines produces no NPC at all. -/
theorem C8_nonempty_dialogue :
    (∀ (m : SourceMap) (r : CleanMap) (npc : Npc),
        convert_map m = Except.ok r → npc ∈ r.npcs → npc.dialogue.lines ≠ []) ∧
    (∀ (e : Event) (page : Page) (rest : List Page),
        e.pages = page :: rest →
        (extract_dialogue_from_commands page.list).2 = [] →
        convertEvent (some e) = Except.ok none) := by
  constructor
  · intro m r npc hok hm
    simp only [convert_map] at hok
    match hE : convertEvents m.events with
    | Except.error e => rw [hE] at hok; exact absurd hok (by simp)
    | Except.ok npcs =>
      rw [hE] at hok
      simp only [Except.ok.injEq] at hok
      subst hok
      exact convertEvents_lines_ne_nil m.events npcs hE npc hm
  · intro e page rest hp hl
    simp [convertEvent, hp, hl]

/-- An event whose page shows a portrait but no text lines. -/
def noLinesEvent : Event :=
  { name := "Guard"
    x := 4
    y := 5
    pages :=
      [ { image := { characterName := "Guard1", direction := 4 }
          list := [{ code := 101, parameters := ["Guard_face"] }] } ] }

/-- Witness for `C8_nonempty_dialogue`: the NPC emitted for the
end-to-end scenario has a dialogue line, and `noLinesEvent` is dropped. -/
theorem C8_nonempty_dialogue_witness :
    ({ name := "Bob"
       x := 1
       y := 0
       sprite := "Actor1"
       facing := "right"
       dialogue :=
         { speaker := "Bob"
           portrait := "Bob_1"
           lines := ["Hi there"] } } : Npc).dialogue.lines ≠ [] ∧
    convertEvent (some noLinesEvent) = Except.ok none :=
  ⟨C8_nonempty_dialogue.1 exampleSourceMap exampleCleanMap _ rfl (by decide),
   C8_nonempty_dialogue.2 noLinesEvent _ _ rfl rfl⟩

/-- C9: a pair whose resolved source file is missing contributes no
output, contributes one skip notice, and leaves the processing of the
remaining pairs unchanged. -/
theorem C9_missing_source (fs : String → Option SourceMap)
    (srcDir src dst : String) (rest : List (String × String))
    (outs : List (String × CleanMap)) (logs : List String)
    (hmiss : fs (resolvePath srcDir src) = none)
    (hrest : runDriver fs srcDir rest = Except.ok (outs, logs)) :
    runDriver fs srcDir ((src, dst) :: rest) =
      Except.ok (outs, skipNotice src :: logs) := by
  simp [runDriver, hmiss, hrest]

/-- Witness for `C9_missing_source` over an empty filesystem. -/
theorem C9_missing_source_witness :
    runDriver (fun _ => none) "data" [("Map002.json", "town_of_endgame.json")] =
      Except.ok ([], [skipNotice "Map002.json"]) :=
  C9_missing_source (fun _ => none) "data" "Map002.json" "town_of_endgame.json"
    [] [] [] rfl rfl

end ConvertMaps
